import Mathlib

/-!
Shallow embedding of the movie-stream gateway (Express/axios revisions in
src/server.js and src/unnamed/part_000 .. part_003), covering the source
resolver and the range-aware stream proxy.

Modelling conventions:
* JavaScript numbers that flow through `parseInt` are modelled by `JSNum`
  (an integer or NaN); `NaN` propagates through arithmetic and makes every
  comparison false, exactly as in JS.  (Double-precision rounding of
  integers beyond 2^53 is outside the sizes handled here and is not
  modelled.)
* The Express response object is modelled by `Res`, with the headers-sent
  flag: `status`, `json`, `send`, `setHeader` and `writeHead` after the
  headers were flushed do not change the response and instead set
  `headersSentViolation` (Node raises ERR_HTTP_HEADERS_SENT there).
* Each upstream interaction (sources lookup, HEAD probe, media GET, info
  lookup) is resolved by an `Upstream` environment record; a `false` flag
  means the corresponding axios call throws, which the handlers catch.
* Handlers return a `StreamOutcome`: the final response plus counters of
  the upstream calls that were issued and a record of any client-disconnect
  cleanup the handler registered (`abortInstalled`: the sources register
  none — no `close` listener, no `destroy`/`abort` call appears anywhere
  in the streaming handlers).
-/

/-- A JavaScript number as produced by `parseInt`: an integer or NaN. -/
inductive JSNum where
  | nan : JSNum
  | num : Int → JSNum
deriving DecidableEq, Repr

namespace JSNum

/-- JS subtraction; NaN propagates. -/
def sub : JSNum → JSNum → JSNum
  | num a, num b => num (a - b)
  | _, _ => nan

/-- JS addition; NaN propagates. -/
def add : JSNum → JSNum → JSNum
  | num a, num b => num (a + b)
  | _, _ => nan

/-- JS `>=`: any comparison involving NaN is false. -/
def ge : JSNum → JSNum → Bool
  | num a, num b => decide (b ≤ a)
  | _, _ => false

/-- How the number renders inside a template string (`NaN` for NaN). -/
def toDisplay : JSNum → String
  | nan => "NaN"
  | num i => toString i

end JSNum

/-- Digit run to a natural number (decimal). -/
def digitsVal (cs : List Char) : Nat :=
  cs.foldl (fun a c => 10 * a + (c.toNat - 48)) 0

/-- `parseInt(s, 10)`: skip leading whitespace, optional sign, then the
longest leading digit run; NaN when that run is empty. -/
def parseIntChars (cs0 : List Char) : JSNum :=
  let cs := cs0.dropWhile (fun c => c = ' ' || c = '\t' || c = '\n' || c = '\r')
  match cs with
  | '-' :: rest =>
    let ds := rest.takeWhile Char.isDigit
    if ds.isEmpty then JSNum.nan else JSNum.num (-(digitsVal ds : Int))
  | '+' :: rest =>
    let ds := rest.takeWhile Char.isDigit
    if ds.isEmpty then JSNum.nan else JSNum.num (digitsVal ds : Int)
  | _ =>
    let ds := cs.takeWhile Char.isDigit
    if ds.isEmpty then JSNum.nan else JSNum.num (digitsVal ds : Int)

/-- `parseInt` on a string. -/
def parseIntJS (s : String) : JSNum := parseIntChars s.toList

/-- Does `pat` occur at the head of `cs`? -/
def headSeg : List Char → List Char → Bool
  | [], _ => true
  | _ :: _, [] => false
  | p :: ps, c :: cs => p = c && headSeg ps cs

/-- Remove the first occurrence of `pat` from `cs` — the JS string
replace with a non-global plain regex replaces only the first match. -/
def removeFirstSeg (pat : List Char) : List Char → List Char
  | [] => []
  | c :: rest =>
    if headSeg pat (c :: rest) then (c :: rest).drop pat.length
    else c :: removeFirstSeg pat rest

/-- The JS split on a dash: split at every dash, keeping empty pieces. -/
def splitDash : List Char → List (List Char)
  | [] => [[]]
  | c :: rest =>
    let r := splitDash rest
    if c = '-' then [] :: r
    else
      match r with
      | [] => [[c]]
      | g :: gs => (c :: g) :: gs

/-- The two numbers the range branch extracts from a `Range` header. -/
structure RangeParts where
  start : JSNum
  endB : JSNum
deriving DecidableEq, Repr

/-- The shared range-parsing idiom of every revision: strip the first
occurrence of the bytes= token, split on dashes, parseInt the first piece
as the start, and take the second piece as the end when it is truthy
(an absent or empty second piece is falsy in JS, so the end then defaults
to fileSize - 1). -/
def parseRange (range : String) (fileSize : JSNum) : RangeParts :=
  let parts := splitDash (removeFirstSeg "bytes=".toList range.toList)
  let start := parseIntChars (parts.headD [])
  let endB :=
    match (parts.drop 1).head? with
    | some p => if p.isEmpty then fileSize.sub (JSNum.num 1) else parseIntChars p
    | none => fileSize.sub (JSNum.num 1)
  { start := start, endB := endB }

/-- One entry of the upstream sources list. -/
structure MediaSource where
  quality : String
  download_url : String
  stream_url : String
  size : Nat
  format : String
deriving DecidableEq, Repr

/-- The selection expression shared by every handler: find the first
source whose quality strictly equals the request, falling back to the
first element of the list (an empty list leaves the selection undefined,
hence `none`). -/
def selectSource (sources : List MediaSource) (quality : String) : Option MediaSource :=
  match sources.find? (fun s => s.quality == quality) with
  | some s => some s
  | none => sources.head?

/-- Modelled from the spec: the selection rule in its own words — the first
entry whose quality label exactly equals the request. -/
def firstExactMatch : List MediaSource → String → Option MediaSource
  | [], _ => none
  | s :: rest, q => if s.quality = q then some s else firstExactMatch rest q

/-- Modelled from the spec: first exact quality match, else the first entry
of the upstream list; fails only on an empty list. -/
def specSelect (sources : List MediaSource) (q : String) : Option MediaSource :=
  match firstExactMatch sources q with
  | some s => some s
  | none => sources.head?

/-- Associative header update (Express `setHeader` replaces the value). -/
def setH (hs : List (String × String)) (k v : String) : List (String × String) :=
  match hs with
  | [] => [(k, v)]
  | (k', v') :: rest => if k' = k then (k, v) :: rest else (k', v') :: setH rest k v

/-- Header lookup. -/
def getH (hs : List (String × String)) (k : String) : Option String :=
  match hs with
  | [] => none
  | (k', v) :: rest => if k' = k then some v else getH rest k

/-- The Express response object, with the headers-sent state machine. -/
structure Res where
  status : Nat
  headers : List (String × String)
  headersSent : Bool
  jsonBody : Option String
  sentText : Option String
  ended : Bool
  headersSentViolation : Bool
deriving DecidableEq, Repr

/-- A fresh response: status 200, no headers, nothing sent. -/
def Res.fresh : Res :=
  { status := 200, headers := [], headersSent := false, jsonBody := none,
    sentText := none, ended := false, headersSentViolation := false }

/-- `res.setHeader(k, v)`. -/
def Res.setHeader (r : Res) (k v : String) : Res :=
  if r.headersSent then { r with headersSentViolation := true }
  else { r with headers := setH r.headers k v }

/-- `res.status(st)` (changing the status line after the headers were sent
is an error). -/
def Res.setStatus (r : Res) (st : Nat) : Res :=
  if r.headersSent then { r with headersSentViolation := true }
  else { r with status := st }

/-- `res.writeHead(st, hs)`: flushes the status line and headers. -/
def Res.writeHead (r : Res) (st : Nat) (hs : List (String × String)) : Res :=
  if r.headersSent then { r with headersSentViolation := true }
  else { r with status := st,
                headers := hs.foldl (fun a kv => setH a kv.1 kv.2) r.headers,
                headersSent := true }

/-- `res.json(body)`: sends a JSON body (throws once the headers are sent). -/
def Res.json (r : Res) (body : String) : Res :=
  if r.headersSent then { r with headersSentViolation := true }
  else { r with jsonBody := some body, headersSent := true, ended := true }

/-- `res.send(text)`. -/
def Res.send (r : Res) (text : String) : Res :=
  if r.headersSent then { r with headersSentViolation := true }
  else { r with sentText := some text, headersSent := true, ended := true }

/-- `res.end()`. -/
def Res.endResponse (r : Res) : Res :=
  { r with headersSent := true, ended := true }

/-- One request's view of the upstream collaborators: whether each axios
call succeeds and what it answers. -/
structure Upstream where
  sourcesCallOk : Bool
  sourcesSuccess : Bool
  sources : List MediaSource
  headOk : Bool
  headContentLength : String
  headContentType : Option String
  mediaFetchOk : Bool
  mediaContentLength : Option String
  mediaContentType : Option String
  infoOk : Bool
  infoSuccess : Bool
  infoTitle : String
deriving DecidableEq, Repr

/-- What a streaming handler did: the final response, how many upstream
calls of each kind it issued, whether it started piping bytes, and whether
it registered any client-disconnect cleanup for the upstream stream.
`threw` records a handler that itself threw (rethrew) out of its own
catch, so that nothing further was written to the response. -/
structure StreamOutcome where
  res : Res
  headProbes : Nat
  rangedFetches : Nat
  fullFetches : Nat
  piped : Bool
  abortInstalled : Bool
  threw : Bool := false
deriving DecidableEq, Repr

/-- The catch-all of part_000/part_002 `/api/stream`: status 500 with the
JSON error body Streaming failed. -/
def streamCatch (r : Res) : Res := (r.setStatus 500).json "Streaming failed"

/-- `GET /api/stream/:movieId` of part_000 (the enhanced revision, with the
`start >= fileSize` guard). -/
def streamHandler (env : Upstream) (qualityQ : Option String) (rangeH : Option String) :
    StreamOutcome :=
  let quality := qualityQ.getD "720p"
  if env.sourcesCallOk then
    if env.sourcesSuccess then
      match selectSource env.sources quality with
      | none =>
        { res := (Res.fresh.setStatus 404).json "Quality not available",
          headProbes := 0, rangedFetches := 0, fullFetches := 0,
          piped := false, abortInstalled := false }
      | some _src =>
        let r := (((Res.fresh.setHeader "Content-Type" "video/mp4").setHeader
            "Accept-Ranges" "bytes").setHeader "Cache-Control" "no-cache").setHeader
            "Connection" "keep-alive"
        match rangeH with
        | some range =>
          if env.headOk then
            let fileSize := parseIntJS env.headContentLength
            let p := parseRange range fileSize
            if p.start.ge fileSize then
              { res := ((r.setStatus 416).setHeader "Content-Range"
                  ("bytes */" ++ fileSize.toDisplay)).endResponse,
                headProbes := 1, rangedFetches := 0, fullFetches := 0,
                piped := false, abortInstalled := false }
            else
              let chunksize := (p.endB.sub p.start).add (JSNum.num 1)
              let r2 := r.writeHead 206
                [("Content-Range", "bytes " ++ p.start.toDisplay ++ "-" ++
                    p.endB.toDisplay ++ "/" ++ fileSize.toDisplay),
                 ("Content-Length", chunksize.toDisplay),
                 ("Accept-Ranges", "bytes")]
              if env.mediaFetchOk then
                { res := r2, headProbes := 1, rangedFetches := 1, fullFetches := 0,
                  piped := true, abortInstalled := false }
              else
                { res := streamCatch r2, headProbes := 1, rangedFetches := 1,
                  fullFetches := 0, piped := false, abortInstalled := false }
          else
            { res := streamCatch r, headProbes := 1, rangedFetches := 0,
              fullFetches := 0, piped := false, abortInstalled := false }
        | none =>
          if env.mediaFetchOk then
            { res := r, headProbes := 0, rangedFetches := 0, fullFetches := 1,
              piped := true, abortInstalled := false }
          else
            { res := streamCatch r, headProbes := 0, rangedFetches := 0,
              fullFetches := 1, piped := false, abortInstalled := false }
    else
      { res := (Res.fresh.setStatus 404).json "Movie not found",
        headProbes := 0, rangedFetches := 0, fullFetches := 0,
        piped := false, abortInstalled := false }
  else
    { res := streamCatch Res.fresh, headProbes := 0, rangedFetches := 0,
      fullFetches := 0, piped := false, abortInstalled := false }

/-- `GET /api/stream/:movieId` of part_002 (earlier revision: same parsing
but no `start >= fileSize` guard — every parsed range gets a 206). -/
def streamHandlerV2 (env : Upstream) (qualityQ : Option String) (rangeH : Option String) :
    StreamOutcome :=
  let quality := qualityQ.getD "720p"
  if env.sourcesCallOk then
    if env.sourcesSuccess then
      match selectSource env.sources quality with
      | none =>
        { res := (Res.fresh.setStatus 404).json "Quality not available",
          headProbes := 0, rangedFetches := 0, fullFetches := 0,
          piped := false, abortInstalled := false }
      | some _src =>
        let r := ((Res.fresh.setHeader "Content-Type" "video/mp4").setHeader
            "Accept-Ranges" "bytes").setHeader "Cache-Control" "no-cache"
        match rangeH with
        | some range =>
          if env.headOk then
            let fileSize := parseIntJS env.headContentLength
            let p := parseRange range fileSize
            let chunksize := (p.endB.sub p.start).add (JSNum.num 1)
            let r2 := r.writeHead 206
              [("Content-Range", "bytes " ++ p.start.toDisplay ++ "-" ++
                  p.endB.toDisplay ++ "/" ++ fileSize.toDisplay),
               ("Content-Length", chunksize.toDisplay)]
            if env.mediaFetchOk then
              { res := r2, headProbes := 1, rangedFetches := 1, fullFetches := 0,
                piped := true, abortInstalled := false }
            else
              { res := streamCatch r2, headProbes := 1, rangedFetches := 1,
                fullFetches := 0, piped := false, abortInstalled := false }
          else
            { res := streamCatch r, headProbes := 1, rangedFetches := 0,
              fullFetches := 0, piped := false, abortInstalled := false }
        | none =>
          if env.mediaFetchOk then
            { res := r, headProbes := 0, rangedFetches := 0, fullFetches := 1,
              piped := true, abortInstalled := false }
          else
            { res := streamCatch r, headProbes := 0, rangedFetches := 0,
              fullFetches := 1, piped := false, abortInstalled := false }
    else
      { res := (Res.fresh.setStatus 404).json "Movie not found",
        headProbes := 0, rangedFetches := 0, fullFetches := 0,
        piped := false, abortInstalled := false }
  else
    { res := streamCatch Res.fresh, headProbes := 0, rangedFetches := 0,
      fullFetches := 0, piped := false, abortInstalled := false }

/-- `GET /api/stream/:movieId` of part_001 (simplified revision: full-body
proxy only; the upstream GET happens before any header is set, and
upstream `content-length` is copied when present). -/
def streamHandlerSimple (env : Upstream) (qualityQ : Option String) : StreamOutcome :=
  let quality := qualityQ.getD "720p"
  if env.sourcesCallOk then
    if env.sourcesSuccess then
      match selectSource env.sources quality with
      | none =>
        { res := (Res.fresh.setStatus 404).json "Quality not available",
          headProbes := 0, rangedFetches := 0, fullFetches := 0,
          piped := false, abortInstalled := false }
      | some _src =>
        if env.mediaFetchOk then
          let r := (((Res.fresh.setHeader "Content-Type" "video/mp4").setHeader
              "Accept-Ranges" "bytes").setHeader "Cache-Control" "no-cache").setHeader
              "Access-Control-Allow-Origin" "*"
          let r :=
            match env.mediaContentLength with
            | some cl => r.setHeader "Content-Length" cl
            | none => r
          { res := r, headProbes := 0, rangedFetches := 0, fullFetches := 1,
            piped := true, abortInstalled := false }
        else
          { res := streamCatch Res.fresh, headProbes := 0, rangedFetches := 0,
            fullFetches := 1, piped := false, abortInstalled := false }
    else
      { res := (Res.fresh.setStatus 404).json "Movie not found",
        headProbes := 0, rangedFetches := 0, fullFetches := 0,
        piped := false, abortInstalled := false }
  else
    { res := streamCatch Res.fresh, headProbes := 0, rangedFetches := 0,
      fullFetches := 0, piped := false, abortInstalled := false }

/-- The probed content type of part_003: the content-type header of the
HEAD response when truthy, else the video/mp4 default (an absent or empty
header is falsy). -/
def probedContentType (ct : Option String) : String :=
  match ct with
  | some c => if c.isEmpty then "video/mp4" else c
  | none => "video/mp4"

/-- `logStreamingEvent` of part_003: its log entry reads the ip from a
`req` identifier that is not declared anywhere in the module scope of
part_003, and optional chaining does not guard an undeclared identifier,
so the very first evaluation throws ReferenceError — every call throws
before using its arguments or writing any log (the arguments are
therefore not modelled). -/
def logStreamingEvent : Except String Unit :=
  Except.error "ReferenceError: req is not defined"

/-- `handleAdvancedRangeRequest` of part_003: probe, parse, guard on
start at or past fileSize, 206 with the probed content type.  Its catch
logs to the console (no response effect) and then calls
`logStreamingEvent`, which always throws, so the status-416 send after it
is unreachable: the handler rethrows with the response untouched.  (The
awaiting router catch then fares no better — it calls `logStreamingEvent`
too, with identifiers that are scoped to the try block — so no response
is written downstream at all.) -/
def handleAdvancedRangeRequest (env : Upstream) (range : String) (r0 : Res) :
    StreamOutcome :=
  if env.headOk then
    let fileSize := parseIntJS env.headContentLength
    let contentType := probedContentType env.headContentType
    let p := parseRange range fileSize
    if p.start.ge fileSize then
      { res := ((r0.setStatus 416).setHeader "Content-Range"
          ("bytes */" ++ fileSize.toDisplay)).endResponse,
        headProbes := 1, rangedFetches := 0, fullFetches := 0,
        piped := false, abortInstalled := false }
    else
      let chunksize := (p.endB.sub p.start).add (JSNum.num 1)
      let r2 := r0.writeHead 206
        [("Content-Range", "bytes " ++ p.start.toDisplay ++ "-" ++
            p.endB.toDisplay ++ "/" ++ fileSize.toDisplay),
         ("Accept-Ranges", "bytes"),
         ("Content-Length", chunksize.toDisplay),
         ("Content-Type", contentType),
         ("Cache-Control", "no-cache")]
      if env.mediaFetchOk then
        { res := r2, headProbes := 1, rangedFetches := 1, fullFetches := 0,
          piped := true, abortInstalled := false }
      else
        match logStreamingEvent with
        | Except.error _ =>
          { res := r2, headProbes := 1, rangedFetches := 1, fullFetches := 0,
            piped := false, abortInstalled := false, threw := true }
        | Except.ok _ =>
          { res := (r2.setStatus 416).send "Range Not Satisfiable",
            headProbes := 1, rangedFetches := 1, fullFetches := 0,
            piped := false, abortInstalled := false }
  else
    match logStreamingEvent with
    | Except.error _ =>
      { res := r0, headProbes := 1, rangedFetches := 0, fullFetches := 0,
        piped := false, abortInstalled := false, threw := true }
    | Except.ok _ =>
      { res := (r0.setStatus 416).send "Range Not Satisfiable",
        headProbes := 1, rangedFetches := 0, fullFetches := 0,
        piped := false, abortInstalled := false }

/-- Response of `GET /api/video/:movieId` in src/server.js (returns the
selected source's stream URL as JSON instead of relaying bytes). -/
structure VideoOutcome where
  status : Nat
  error : Option String
  streamUrl : Option String
  quality : Option String
deriving DecidableEq, Repr

/-- `GET /api/video/:movieId` of src/server.js. -/
def videoHandler (env : Upstream) (qualityQ : Option String) : VideoOutcome :=
  let quality := qualityQ.getD "720p"
  if env.sourcesCallOk then
    if env.sourcesSuccess then
      match selectSource env.sources quality with
      | none => { status := 404, error := some "Quality not available",
                  streamUrl := none, quality := none }
      | some src => { status := 200, error := none,
                      streamUrl := some src.stream_url, quality := some src.quality }
    else
      { status := 404, error := some "Movie not found", streamUrl := none,
        quality := none }
  else
    { status := 500, error := some "Failed to get video stream", streamUrl := none,
      quality := none }

/-- The download filename sanitizer: every character that is not an ASCII
letter or digit becomes an underscore, then the whole title is lowered. -/
def sanitizeTitle (t : String) : String :=
  String.map Char.toLower (String.map (fun c => if c.isAlphanum then c else '_') t)

/-- The catch of part_000 `/api/download`. -/
def downloadCatch (r : Res) : Res := (r.setStatus 500).json "Download failed"

/-- `GET /api/download/:movieId` of part_000. -/
def downloadHandler (env : Upstream) (movieId : String) (qualityQ : Option String) :
    StreamOutcome :=
  let quality := qualityQ.getD "720p"
  if env.sourcesCallOk then
    if env.sourcesSuccess then
      match selectSource env.sources quality with
      | none =>
        { res := (Res.fresh.setStatus 404).json "Quality not available",
          headProbes := 0, rangedFetches := 0, fullFetches := 0,
          piped := false, abortInstalled := false }
      | some src =>
        if env.infoOk then
          let movieTitle := if env.infoSuccess then env.infoTitle else "movie-" ++ movieId
          let safeTitle := sanitizeTitle movieTitle
          let r := ((Res.fresh.setHeader "Content-Disposition"
              ("attachment; filename=" ++ safeTitle ++ "-" ++ quality ++ ".mp4")).setHeader
              "Content-Type" "video/mp4").setHeader "Content-Length" (toString src.size)
          if env.mediaFetchOk then
            { res := r, headProbes := 0, rangedFetches := 0, fullFetches := 1,
              piped := true, abortInstalled := false }
          else
            { res := downloadCatch r, headProbes := 0, rangedFetches := 0,
              fullFetches := 1, piped := false, abortInstalled := false }
        else
          { res := downloadCatch Res.fresh, headProbes := 0, rangedFetches := 0,
            fullFetches := 0, piped := false, abortInstalled := false }
    else
      { res := (Res.fresh.setStatus 404).json "Movie not found",
        headProbes := 0, rangedFetches := 0, fullFetches := 0,
        piped := false, abortInstalled := false }
  else
    { res := downloadCatch Res.fresh, headProbes := 0, rangedFetches := 0,
      fullFetches := 0, piped := false, abortInstalled := false }

/-- Sample sources list used by concrete evaluations. -/
def src480 : MediaSource :=
  { quality := "480p", download_url := "u480", stream_url := "s480", size := 1500,
    format := "mp4" }

/-- Sample 720p source. -/
def src720 : MediaSource :=
  { quality := "720p", download_url := "u720", stream_url := "s720", size := 1500,
    format := "mp4" }

/-- A fully healthy upstream over a 1500-byte 720p file. -/
def envOk : Upstream :=
  { sourcesCallOk := true, sourcesSuccess := true, sources := [src480, src720],
    headOk := true, headContentLength := "1500", headContentType := some "video/mp4",
    mediaFetchOk := true, mediaContentLength := some "1500",
    mediaContentType := some "video/mp4", infoOk := true, infoSuccess := true,
    infoTitle := "Test Movie" }

/-- Looking up a key immediately after setting it yields the set value. -/
theorem getH_setH_self (hs : List (String × String)) (k v : String) :
    getH (setH hs k v) k = some v := by
  induction hs with
  | nil => simp [setH, getH]
  | cons p rest ih =>
    by_cases h : p.1 = k
    · simp [setH, getH, h]
    · simp [setH, getH, h, ih]

/-- Setting one key does not change the lookup of another. -/
theorem getH_setH_ne (hs : List (String × String)) (k k' v : String) (h : k' ≠ k) :
    getH (setH hs k' v) k = getH hs k := by
  induction hs with
  | nil => simp [setH, getH, h]
  | cons p rest ih =>
    by_cases hp : p.1 = k'
    · simp [setH, getH, hp, h]
    · by_cases hpk : p.1 = k
      · simp [setH, getH, hp, hpk, Ne.symm h]
      · simp [setH, getH, hp, hpk, ih]

/-- The find of the selection expression agrees with the first exact match
of the specification. -/
theorem find_eq_firstExactMatch (l : List MediaSource) (q : String) :
    l.find? (fun s => s.quality == q) = firstExactMatch l q := by
  induction l with
  | nil => rfl
  | cons s rest ih =>
    by_cases h : s.quality = q
    · have hb : (s.quality == q) = true := beq_iff_eq.mpr h
      simp [List.find?, firstExactMatch, hb, h]
    · have hb : (s.quality == q) = false := beq_eq_false_iff_ne.mpr h
      simp [List.find?, firstExactMatch, hb, h, ih]

/-- C4: for every item whose upstream sources list is non-empty, the
resolver selects the first entry whose quality label exactly equals the
requested label (case-sensitive), and when no entry matches it selects the
first entry in upstream order; selection fails exactly when the list is
empty. -/
theorem selectSource_first_match_else_first (sources : List MediaSource) (q : String) :
    selectSource sources q = specSelect sources q ∧
    (selectSource sources q = none ↔ sources = []) := by
  constructor
  · simp [selectSource, specSelect, find_eq_firstExactMatch]
  · cases sources with
    | nil => simp [selectSource, List.find?]
    | cons s rest =>
      simp only [selectSource]
      cases hf : (s :: rest).find? (fun t => t.quality == q) <;> simp [hf]

/-- C9: omitting the quality query parameter behaves exactly as requesting
720p, in every streaming, video-URL and download handler. -/
theorem omitted_quality_defaults_720p (env : Upstream) (movieId : String)
    (rangeH : Option String) :
    streamHandler env none rangeH = streamHandler env (some "720p") rangeH ∧
    streamHandlerV2 env none rangeH = streamHandlerV2 env (some "720p") rangeH ∧
    streamHandlerSimple env none = streamHandlerSimple env (some "720p") ∧
    videoHandler env none = videoHandler env (some "720p") ∧
    downloadHandler env movieId none = downloadHandler env movieId (some "720p") :=
  ⟨rfl, rfl, rfl, rfl, rfl⟩

/-- C5 (evaluation of the defect): no streaming handler registers any
client-disconnect cleanup for the upstream fetch — the sources contain no
close listener and never destroy or abort the upstream stream — so a
disconnecting client leaves the upstream transfer untouched; in
particular the healthy full relay pipes with no cleanup installed. -/
theorem stream_no_disconnect_cleanup (env : Upstream) (qualityQ rangeH : Option String)
    (range : String) (r0 : Res) :
    (streamHandler env qualityQ rangeH).abortInstalled = false ∧
    (streamHandlerV2 env qualityQ rangeH).abortInstalled = false ∧
    (streamHandlerSimple env qualityQ).abortInstalled = false ∧
    (handleAdvancedRangeRequest env range r0).abortInstalled = false ∧
    ((streamHandler envOk (some "720p") none).piped = true ∧
     (streamHandler envOk (some "720p") none).abortInstalled = false) := by
  refine ⟨?_, ?_, ?_, ?_, by decide⟩
  · simp only [streamHandler]
    repeat' split
    all_goals rfl
  · simp only [streamHandlerV2]
    repeat' split
    all_goals rfl
  · simp only [streamHandlerSimple]
    repeat' split
    all_goals rfl
  · simp only [handleAdvancedRangeRequest]
    repeat' split
    all_goals rfl

/-- NaN absorbs subtraction on the right. -/
theorem JSNum.sub_nan (x : JSNum) : x.sub JSNum.nan = JSNum.nan := by
  cases x <;> rfl

/-- NaN absorbs addition on the left. -/
theorem JSNum.nan_add (y : JSNum) : JSNum.add JSNum.nan y = JSNum.nan := by
  cases y <;> rfl

/-- C1: for every range request whose parsed bounds satisfy
0 <= start <= end < totalSize, both the enhanced stream handler and the
advanced range handler respond 206 with Content-Length end-start+1 and
Content-Range bytes start-end/totalSize; and whenever the end byte is
absent from the header (the dash-split second piece is missing or empty),
the parsed end defaults to totalSize - 1. -/
theorem stream_valid_range_206 (env : Upstream) (qualityQ : Option String)
    (range rDefault : String) (src : MediaSource) (n s e : Int) (r0 : Res)
    (hCall : env.sourcesCallOk = true) (hSucc : env.sourcesSuccess = true)
    (hSel : selectSource env.sources (qualityQ.getD "720p") = some src)
    (hHead : env.headOk = true)
    (hCL : parseIntJS env.headContentLength = JSNum.num n)
    (hPR : parseRange range (JSNum.num n) = ⟨JSNum.num s, JSNum.num e⟩)
    (h0 : 0 ≤ s) (hse : s ≤ e) (hen : e < n)
    (hFetch : env.mediaFetchOk = true)
    (hSent : r0.headersSent = false)
    (hDef : ((splitDash (removeFirstSeg "bytes=".toList rDefault.toList)).drop 1).head? = some [] ∨
            ((splitDash (removeFirstSeg "bytes=".toList rDefault.toList)).drop 1).head? = none) :
    ((streamHandler env qualityQ (some range)).res.status = 206 ∧
     getH (streamHandler env qualityQ (some range)).res.headers "Content-Length" =
       some (toString (e - s + 1)) ∧
     getH (streamHandler env qualityQ (some range)).res.headers "Content-Range" =
       some ("bytes " ++ toString s ++ "-" ++ toString e ++ "/" ++ toString n)) ∧
    ((handleAdvancedRangeRequest env range r0).res.status = 206 ∧
     getH (handleAdvancedRangeRequest env range r0).res.headers "Content-Length" =
       some (toString (e - s + 1)) ∧
     getH (handleAdvancedRangeRequest env range r0).res.headers "Content-Range" =
       some ("bytes " ++ toString s ++ "-" ++ toString e ++ "/" ++ toString n)) ∧
    (parseRange rDefault (JSNum.num n)).endB = JSNum.num (n - 1) := by
  have hguard : JSNum.ge (JSNum.num s) (JSNum.num n) = false := by
    simp [JSNum.ge]; omega
  refine ⟨?_, ?_, ?_⟩
  · simp [streamHandler, hCall, hSucc, hSel, hHead, hCL, hPR, hFetch, hguard,
      Res.fresh, Res.setHeader, Res.writeHead, Res.setStatus, setH, getH,
      JSNum.toDisplay, JSNum.sub, JSNum.add]
  · simp [handleAdvancedRangeRequest, hHead, hCL, hPR, hFetch, hguard, hSent,
      Res.writeHead, Res.setStatus, JSNum.toDisplay, JSNum.sub, JSNum.add,
      getH_setH_self, getH_setH_ne]
  · have hend : (parseRange rDefault (JSNum.num n)).endB = (JSNum.num n).sub (JSNum.num 1) := by
      simp only [parseRange]
      rcases hDef with h | h <;> rw [h] <;> simp
    simpa [JSNum.sub] using hend

/-- C1 witness: a 1500-byte file answered for bytes 0 to 99. -/
theorem stream_valid_range_206_witness :
    ((streamHandler envOk (some "720p") (some "bytes=0-99")).res.status = 206 ∧
     getH (streamHandler envOk (some "720p") (some "bytes=0-99")).res.headers "Content-Length" =
       some (toString ((99 : Int) - 0 + 1)) ∧
     getH (streamHandler envOk (some "720p") (some "bytes=0-99")).res.headers "Content-Range" =
       some ("bytes " ++ toString (0 : Int) ++ "-" ++ toString (99 : Int) ++ "/" ++ toString (1500 : Int))) ∧
    ((handleAdvancedRangeRequest envOk "bytes=0-99" Res.fresh).res.status = 206 ∧
     getH (handleAdvancedRangeRequest envOk "bytes=0-99" Res.fresh).res.headers "Content-Length" =
       some (toString ((99 : Int) - 0 + 1)) ∧
     getH (handleAdvancedRangeRequest envOk "bytes=0-99" Res.fresh).res.headers "Content-Range" =
       some ("bytes " ++ toString (0 : Int) ++ "-" ++ toString (99 : Int) ++ "/" ++ toString (1500 : Int))) ∧
    (parseRange "bytes=5-" (JSNum.num 1500)).endB = JSNum.num (1500 - 1) :=
  stream_valid_range_206 envOk (some "720p") "bytes=0-99" "bytes=5-" src720 1500 0 99
    Res.fresh rfl rfl (by decide) rfl (by decide) (by decide) (by decide) (by decide)
    (by decide) rfl rfl (Or.inl (by decide))

/-- C2 counterexample: the part_002 revision answers a start past the end
of a 1500-byte file with a 206 and still issues the upstream ranged GET. -/
theorem streamV2_out_of_bounds_start_206 :
    (streamHandlerV2 envOk (some "720p") (some "bytes=2000-")).res.status = 206 ∧
    (streamHandlerV2 envOk (some "720p") (some "bytes=2000-")).res.status ≠ 416 ∧
    (streamHandlerV2 envOk (some "720p") (some "bytes=2000-")).rangedFetches = 1 := by
  decide

/-- C2 (amended): in the enhanced revision (part_000) a parsed start at or
past the total size yields 416 with Content-Range bytes star-slash-size and
no upstream media fetch; the part_002 revision has no such guard and
answers 206 while performing the upstream ranged fetch. -/
theorem stream_out_of_bounds_start_416 (env : Upstream) (qualityQ : Option String)
    (range : String) (src : MediaSource) (n s : Int)
    (hCall : env.sourcesCallOk = true) (hSucc : env.sourcesSuccess = true)
    (hSel : selectSource env.sources (qualityQ.getD "720p") = some src)
    (hHead : env.headOk = true)
    (hCL : parseIntJS env.headContentLength = JSNum.num n)
    (hStart : (parseRange range (JSNum.num n)).start = JSNum.num s)
    (hns : n ≤ s) :
    ((streamHandler env qualityQ (some range)).res.status = 416 ∧
     getH (streamHandler env qualityQ (some range)).res.headers "Content-Range" =
       some ("bytes */" ++ toString n) ∧
     (streamHandler env qualityQ (some range)).rangedFetches = 0 ∧
     (streamHandler env qualityQ (some range)).fullFetches = 0 ∧
     (streamHandler env qualityQ (some range)).res.ended = true) ∧
    ((streamHandlerV2 env qualityQ (some range)).res.status = 206 ∧
     (streamHandlerV2 env qualityQ (some range)).rangedFetches = 1) := by
  have hguard : JSNum.ge (JSNum.num s) (JSNum.num n) = true := by
    simp [JSNum.ge]; omega
  constructor
  · simp [streamHandler, hCall, hSucc, hSel, hHead, hCL, hStart, hguard, Res.fresh,
      Res.setHeader, Res.setStatus, Res.endResponse, setH, getH, JSNum.toDisplay]
  · cases hm : env.mediaFetchOk <;>
      simp [streamHandlerV2, hCall, hSucc, hSel, hHead, hCL, hm, Res.fresh,
        Res.setHeader, Res.writeHead, Res.setStatus, Res.json, streamCatch, setH, getH]

/-- C2 witness for the amended statement: start 2000 against 1500 bytes. -/
theorem stream_out_of_bounds_start_416_witness :
    ((streamHandler envOk (some "720p") (some "bytes=2000-")).res.status = 416 ∧
     getH (streamHandler envOk (some "720p") (some "bytes=2000-")).res.headers "Content-Range" =
       some ("bytes */" ++ toString (1500 : Int)) ∧
     (streamHandler envOk (some "720p") (some "bytes=2000-")).rangedFetches = 0 ∧
     (streamHandler envOk (some "720p") (some "bytes=2000-")).fullFetches = 0 ∧
     (streamHandler envOk (some "720p") (some "bytes=2000-")).res.ended = true) ∧
    ((streamHandlerV2 envOk (some "720p") (some "bytes=2000-")).res.status = 206 ∧
     (streamHandlerV2 envOk (some "720p") (some "bytes=2000-")).rangedFetches = 1) :=
  stream_out_of_bounds_start_416 envOk (some "720p") "bytes=2000-" src720 1500 2000
    rfl rfl (by decide) rfl (by decide) (by decide) (by decide)

/-- C3 counterexample: bytes 1000-1999 of a 1500-byte file is answered
206 with Content-Range bytes 1000-1999/1500, not 416. -/
theorem stream_end_overflow_gets_206 :
    (streamHandler envOk (some "720p") (some "bytes=1000-1999")).res.status = 206 ∧
    (streamHandler envOk (some "720p") (some "bytes=1000-1999")).res.status ≠ 416 ∧
    getH (streamHandler envOk (some "720p") (some "bytes=1000-1999")).res.headers "Content-Range" =
      some "bytes 1000-1999/1500" ∧
    getH (streamHandler envOk (some "720p") (some "bytes=1000-1999")).res.headers "Content-Length" =
      some "1000" := by
  decide

/-- C3 (amended): a parsed range is rejected with 416 exactly when its
start is at or past the total size; an end at or past the total size is
neither rejected nor clamped — the 206 carries the oversized end verbatim
in Content-Range and a Content-Length computed from it. -/
theorem range_rejection_only_checks_start (env : Upstream) (qualityQ : Option String)
    (range : String) (src : MediaSource) (n s e : Int) (r0 : Res)
    (hCall : env.sourcesCallOk = true) (hSucc : env.sourcesSuccess = true)
    (hSel : selectSource env.sources (qualityQ.getD "720p") = some src)
    (hHead : env.headOk = true)
    (hCL : parseIntJS env.headContentLength = JSNum.num n)
    (hPR : parseRange range (JSNum.num n) = ⟨JSNum.num s, JSNum.num e⟩)
    (hFetch : env.mediaFetchOk = true)
    (hSent : r0.headersSent = false) :
    (n ≤ s →
      (streamHandler env qualityQ (some range)).res.status = 416 ∧
      getH (streamHandler env qualityQ (some range)).res.headers "Content-Range" =
        some ("bytes */" ++ toString n) ∧
      (streamHandler env qualityQ (some range)).rangedFetches = 0) ∧
    (s < n →
      (streamHandler env qualityQ (some range)).res.status = 206 ∧
      getH (streamHandler env qualityQ (some range)).res.headers "Content-Range" =
        some ("bytes " ++ toString s ++ "-" ++ toString e ++ "/" ++ toString n) ∧
      getH (streamHandler env qualityQ (some range)).res.headers "Content-Length" =
        some (toString (e - s + 1)) ∧
      (handleAdvancedRangeRequest env range r0).res.status = 206) := by
  constructor
  · intro hns
    have hguard : JSNum.ge (JSNum.num s) (JSNum.num n) = true := by
      simp [JSNum.ge]; omega
    simp [streamHandler, hCall, hSucc, hSel, hHead, hCL, hPR, hguard, Res.fresh,
      Res.setHeader, Res.setStatus, Res.endResponse, setH, getH, JSNum.toDisplay]
  · intro hsn
    have hguard : JSNum.ge (JSNum.num s) (JSNum.num n) = false := by
      simp [JSNum.ge]; omega
    refine ⟨?_, ?_, ?_, ?_⟩ <;>
      simp [streamHandler, handleAdvancedRangeRequest, hCall, hSucc, hSel, hHead,
        hCL, hPR, hFetch, hguard, hSent, Res.fresh, Res.setHeader, Res.writeHead,
        Res.setStatus, setH, getH, JSNum.toDisplay, JSNum.sub, JSNum.add]

/-- C3 witness for the amended statement: the in-bounds-start side at
bytes 1000-1999 of 1500. -/
theorem range_rejection_only_checks_start_witness :
    ((1500 : Int) ≤ 1000 →
      (streamHandler envOk (some "720p") (some "bytes=1000-1999")).res.status = 416 ∧
      getH (streamHandler envOk (some "720p") (some "bytes=1000-1999")).res.headers "Content-Range" =
        some ("bytes */" ++ toString (1500 : Int)) ∧
      (streamHandler envOk (some "720p") (some "bytes=1000-1999")).rangedFetches = 0) ∧
    ((1000 : Int) < 1500 →
      (streamHandler envOk (some "720p") (some "bytes=1000-1999")).res.status = 206 ∧
      getH (streamHandler envOk (some "720p") (some "bytes=1000-1999")).res.headers "Content-Range" =
        some ("bytes " ++ toString (1000 : Int) ++ "-" ++ toString (1999 : Int) ++ "/" ++ toString (1500 : Int)) ∧
      getH (streamHandler envOk (some "720p") (some "bytes=1000-1999")).res.headers "Content-Length" =
        some (toString ((1999 : Int) - 1000 + 1)) ∧
      (handleAdvancedRangeRequest envOk "bytes=1000-1999" Res.fresh).res.status = 206) :=
  range_rejection_only_checks_start envOk (some "720p") "bytes=1000-1999" src720
    1500 1000 1999 Res.fresh rfl rfl (by decide) rfl (by decide) (by decide) rfl rfl

/-- C6 counterexample: with the HEAD probe failing, a ranged request is
answered 500 with a JSON error — no fallback full-body relay happens and
the client gets neither a 200 nor a 206. -/
theorem probe_failure_yields_500_not_relay :
    (streamHandler { envOk with headOk := false } (some "720p") (some "bytes=0-")).res.status = 500 ∧
    (streamHandler { envOk with headOk := false } (some "720p") (some "bytes=0-")).res.jsonBody =
      some "Streaming failed" ∧
    (streamHandler { envOk with headOk := false } (some "720p") (some "bytes=0-")).fullFetches = 0 ∧
    ¬((streamHandler { envOk with headOk := false } (some "720p") (some "bytes=0-")).res.status = 200 ∨
      (streamHandler { envOk with headOk := false } (some "720p") (some "bytes=0-")).res.status = 206) := by
  decide

/-- C6 (amended): when the metadata probe fails on a ranged request,
neither cited revision falls back to a full-body relay: the enhanced
handler answers 500 with the JSON error Streaming failed and issues no
media fetch at all, while the advanced range handler of part_003 never
reaches its 416 send — its catch first calls logStreamingEvent, which
always throws, so the handler rethrows with the response untouched and
nothing is written downstream. -/
theorem probe_failure_error_paths (env : Upstream) (qualityQ : Option String)
    (range : String) (src : MediaSource) (r0 : Res)
    (hCall : env.sourcesCallOk = true) (hSucc : env.sourcesSuccess = true)
    (hSel : selectSource env.sources (qualityQ.getD "720p") = some src)
    (hHead : env.headOk = false) :
    ((streamHandler env qualityQ (some range)).res.status = 500 ∧
     (streamHandler env qualityQ (some range)).res.jsonBody = some "Streaming failed" ∧
     (streamHandler env qualityQ (some range)).rangedFetches = 0 ∧
     (streamHandler env qualityQ (some range)).fullFetches = 0) ∧
    ((handleAdvancedRangeRequest env range r0).threw = true ∧
     (handleAdvancedRangeRequest env range r0).res = r0 ∧
     (handleAdvancedRangeRequest env range r0).res.sentText = r0.sentText ∧
     (handleAdvancedRangeRequest env range r0).rangedFetches = 0 ∧
     (handleAdvancedRangeRequest env range r0).fullFetches = 0) := by
  constructor
  · simp [streamHandler, hCall, hSucc, hSel, hHead, streamCatch, Res.fresh,
      Res.setHeader, Res.setStatus, Res.json, setH]
  · simp [handleAdvancedRangeRequest, hHead, logStreamingEvent]

/-- C6 witness for the amended statement. -/
theorem probe_failure_error_paths_witness :
    ((streamHandler { envOk with headOk := false } (some "720p") (some "bytes=0-")).res.status = 500 ∧
     (streamHandler { envOk with headOk := false } (some "720p") (some "bytes=0-")).res.jsonBody =
       some "Streaming failed" ∧
     (streamHandler { envOk with headOk := false } (some "720p") (some "bytes=0-")).rangedFetches = 0 ∧
     (streamHandler { envOk with headOk := false } (some "720p") (some "bytes=0-")).fullFetches = 0) ∧
    ((handleAdvancedRangeRequest { envOk with headOk := false } "bytes=0-" Res.fresh).threw = true ∧
     (handleAdvancedRangeRequest { envOk with headOk := false } "bytes=0-" Res.fresh).res = Res.fresh ∧
     (handleAdvancedRangeRequest { envOk with headOk := false } "bytes=0-" Res.fresh).res.sentText =
       Res.fresh.sentText ∧
     (handleAdvancedRangeRequest { envOk with headOk := false } "bytes=0-" Res.fresh).rangedFetches = 0 ∧
     (handleAdvancedRangeRequest { envOk with headOk := false } "bytes=0-" Res.fresh).fullFetches = 0) :=
  probe_failure_error_paths { envOk with headOk := false } (some "720p") "bytes=0-"
    src720 Res.fresh rfl rfl (by decide) rfl

/-- C7 counterexample: when the ranged media fetch fails after the 206
headers were already written, the catch attempts a second status and JSON
write on the sent response (a headers-sent violation) and the client never
receives a JSON error body. -/
theorem post_header_error_attempts_second_status :
    (streamHandler { envOk with mediaFetchOk := false } (some "720p") (some "bytes=0-99")).res.headersSentViolation = true ∧
    (streamHandler { envOk with mediaFetchOk := false } (some "720p") (some "bytes=0-99")).res.jsonBody = none ∧
    (streamHandler { envOk with mediaFetchOk := false } (some "720p") (some "bytes=0-99")).res.status = 206 ∧
    (streamHandler { envOk with mediaFetchOk := false } (some "720p") (some "bytes=0-99")).res.headersSent = true := by
  decide

/-- C7 (amended): errors raised before any header is flushed are reported
as structured JSON with an accurate status (404 when the upstream reports
no movie, 500 when the probe fails), with no headers-sent violation; but
an upstream media-fetch failure after the 206 headers were written makes
the shared catch attempt a second status-plus-JSON write on the already
sent response — a headers-sent violation with no JSON delivered — instead
of merely ending the stream. -/
theorem error_reporting_vs_headers_sent (env : Upstream) (qualityQ : Option String)
    (range : String) (src : MediaSource) (n s e : Int)
    (hCall : env.sourcesCallOk = true)
    (hSel : selectSource env.sources (qualityQ.getD "720p") = some src)
    (hCL : parseIntJS env.headContentLength = JSNum.num n)
    (hPR : parseRange range (JSNum.num n) = ⟨JSNum.num s, JSNum.num e⟩)
    (hsn : s < n) :
    (env.sourcesSuccess = false →
       (streamHandler env qualityQ (some range)).res.status = 404 ∧
       (streamHandler env qualityQ (some range)).res.jsonBody = some "Movie not found" ∧
       (streamHandler env qualityQ (some range)).res.headersSentViolation = false) ∧
    (env.sourcesSuccess = true → env.headOk = false →
       (streamHandler env qualityQ (some range)).res.status = 500 ∧
       (streamHandler env qualityQ (some range)).res.jsonBody = some "Streaming failed" ∧
       (streamHandler env qualityQ (some range)).res.headersSentViolation = false) ∧
    (env.sourcesSuccess = true → env.headOk = true → env.mediaFetchOk = false →
       (streamHandler env qualityQ (some range)).res.headersSent = true ∧
       (streamHandler env qualityQ (some range)).res.headersSentViolation = true ∧
       (streamHandler env qualityQ (some range)).res.jsonBody = none ∧
       (streamHandler env qualityQ (some range)).res.status = 206) := by
  have hguard : JSNum.ge (JSNum.num s) (JSNum.num n) = false := by
    simp [JSNum.ge]; omega
  refine ⟨?_, ?_, ?_⟩
  · intro hS
    simp [streamHandler, hCall, hS, Res.fresh, Res.setStatus, Res.json]
  · intro hS hH
    simp [streamHandler, hCall, hS, hSel, hH, streamCatch, Res.fresh,
      Res.setHeader, Res.setStatus, Res.json, setH]
  · intro hS hH hM
    simp [streamHandler, hCall, hS, hSel, hH, hM, hCL, hPR, hguard, streamCatch,
      Res.fresh, Res.setHeader, Res.writeHead, Res.setStatus, Res.json, setH,
      JSNum.toDisplay, JSNum.sub, JSNum.add]

/-- C7 witness for the amended statement: the failed-media-fetch path at
bytes 0-99 of 1500. -/
theorem error_reporting_vs_headers_sent_witness :
    (({ envOk with mediaFetchOk := false } : Upstream).sourcesSuccess = false →
       (streamHandler { envOk with mediaFetchOk := false } (some "720p") (some "bytes=0-99")).res.status = 404 ∧
       (streamHandler { envOk with mediaFetchOk := false } (some "720p") (some "bytes=0-99")).res.jsonBody = some "Movie not found" ∧
       (streamHandler { envOk with mediaFetchOk := false } (some "720p") (some "bytes=0-99")).res.headersSentViolation = false) ∧
    (({ envOk with mediaFetchOk := false } : Upstream).sourcesSuccess = true →
     ({ envOk with mediaFetchOk := false } : Upstream).headOk = false →
       (streamHandler { envOk with mediaFetchOk := false } (some "720p") (some "bytes=0-99")).res.status = 500 ∧
       (streamHandler { envOk with mediaFetchOk := false } (some "720p") (some "bytes=0-99")).res.jsonBody = some "Streaming failed" ∧
       (streamHandler { envOk with mediaFetchOk := false } (some "720p") (some "bytes=0-99")).res.headersSentViolation = false) ∧
    (({ envOk with mediaFetchOk := false } : Upstream).sourcesSuccess = true →
     ({ envOk with mediaFetchOk := false } : Upstream).headOk = true →
     ({ envOk with mediaFetchOk := false } : Upstream).mediaFetchOk = false →
       (streamHandler { envOk with mediaFetchOk := false } (some "720p") (some "bytes=0-99")).res.headersSent = true ∧
       (streamHandler { envOk with mediaFetchOk := false } (some "720p") (some "bytes=0-99")).res.headersSentViolation = true ∧
       (streamHandler { envOk with mediaFetchOk := false } (some "720p") (some "bytes=0-99")).res.jsonBody = none ∧
       (streamHandler { envOk with mediaFetchOk := false } (some "720p") (some "bytes=0-99")).res.status = 206) :=
  error_reporting_vs_headers_sent { envOk with mediaFetchOk := false } (some "720p")
    "bytes=0-99" src720 1500 0 99 rfl (by decide) (by decide) (by decide) (by decide)

/-- C8 counterexample: the probe reports content type video/webm, yet the
stream handler answers Content-Type video/mp4. -/
theorem content_type_ignores_upstream :
    ({ envOk with headContentType := some "video/webm" } : Upstream).headContentType =
      some "video/webm" ∧
    getH (streamHandler { envOk with headContentType := some "video/webm" }
        (some "720p") (some "bytes=0-99")).res.headers "Content-Type" = some "video/mp4" ∧
    getH (streamHandler { envOk with headContentType := some "video/webm" }
        (some "720p") (some "bytes=0-99")).res.headers "Content-Type" ≠ some "video/webm" := by
  decide

/-- C8 (amended): the main stream handler sets Content-Type to the
constant video/mp4 — on ranged and unranged relays alike — regardless of
what the upstream declares; only the advanced range handler of part_003
uses the probed content type, and even there an absent or empty upstream
content type is replaced by the video/mp4 default rather than omitted. -/
theorem content_type_policy (env : Upstream) (qualityQ : Option String)
    (range : String) (src : MediaSource) (n s e : Int) (r0 : Res)
    (hCall : env.sourcesCallOk = true) (hSucc : env.sourcesSuccess = true)
    (hSel : selectSource env.sources (qualityQ.getD "720p") = some src)
    (hHead : env.headOk = true)
    (hCL : parseIntJS env.headContentLength = JSNum.num n)
    (hPR : parseRange range (JSNum.num n) = ⟨JSNum.num s, JSNum.num e⟩)
    (hsn : s < n)
    (hFetch : env.mediaFetchOk = true)
    (hSent : r0.headersSent = false) :
    getH (streamHandler env qualityQ (some range)).res.headers "Content-Type" =
      some "video/mp4" ∧
    getH (streamHandler env qualityQ none).res.headers "Content-Type" =
      some "video/mp4" ∧
    getH (handleAdvancedRangeRequest env range r0).res.headers "Content-Type" =
      some (probedContentType env.headContentType) ∧
    probedContentType none = "video/mp4" ∧
    probedContentType (some "") = "video/mp4" := by
  have hguard : JSNum.ge (JSNum.num s) (JSNum.num n) = false := by
    simp [JSNum.ge]; omega
  refine ⟨?_, ?_, ?_, rfl, rfl⟩
  · simp [streamHandler, hCall, hSucc, hSel, hHead, hCL, hPR, hFetch, hguard,
      Res.fresh, Res.setHeader, Res.writeHead, setH, getH, JSNum.toDisplay,
      JSNum.sub, JSNum.add]
  · simp [streamHandler, hCall, hSucc, hSel, hFetch, Res.fresh, Res.setHeader,
      setH, getH]
  · simp [handleAdvancedRangeRequest, hHead, hCL, hPR, hFetch, hguard, hSent,
      Res.writeHead, JSNum.toDisplay, JSNum.sub, JSNum.add,
      getH_setH_self, getH_setH_ne]

/-- C8 witness for the amended statement, with an upstream that declares
video/webm. -/
theorem content_type_policy_witness :
    getH (streamHandler { envOk with headContentType := some "video/webm" }
        (some "720p") (some "bytes=0-99")).res.headers "Content-Type" = some "video/mp4" ∧
    getH (streamHandler { envOk with headContentType := some "video/webm" }
        (some "720p") none).res.headers "Content-Type" = some "video/mp4" ∧
    getH (handleAdvancedRangeRequest { envOk with headContentType := some "video/webm" }
        "bytes=0-99" Res.fresh).res.headers "Content-Type" =
      some (probedContentType ({ envOk with headContentType := some "video/webm" } : Upstream).headContentType) ∧
    probedContentType none = "video/mp4" ∧
    probedContentType (some "") = "video/mp4" :=
  content_type_policy { envOk with headContentType := some "video/webm" }
    (some "720p") "bytes=0-99" src720 1500 0 99 Res.fresh rfl rfl (by decide) rfl
    (by decide) (by decide) (by decide) rfl rfl

/-- C10: when the parsed start of a present Range header is NaN (for
example bytes=abc-), the NaN comparison makes the out-of-bounds guard
false, so neither 400 nor 416 is returned: both revisions write a 206
whose Content-Length is NaN and whose Content-Range starts bytes NaN-. -/
theorem nan_start_streams_206 (env : Upstream) (qualityQ : Option String)
    (range : String) (src : MediaSource) (n : Int)
    (hCall : env.sourcesCallOk = true) (hSucc : env.sourcesSuccess = true)
    (hSel : selectSource env.sources (qualityQ.getD "720p") = some src)
    (hHead : env.headOk = true)
    (hCL : parseIntJS env.headContentLength = JSNum.num n)
    (hStart : (parseRange range (JSNum.num n)).start = JSNum.nan)
    (hFetch : env.mediaFetchOk = true) :
    JSNum.ge JSNum.nan (JSNum.num n) = false ∧
    (streamHandler env qualityQ (some range)).res.status = 206 ∧
    ¬(streamHandler env qualityQ (some range)).res.status = 400 ∧
    ¬(streamHandler env qualityQ (some range)).res.status = 416 ∧
    getH (streamHandler env qualityQ (some range)).res.headers "Content-Length" =
      some "NaN" ∧
    getH (streamHandler env qualityQ (some range)).res.headers "Content-Range" =
      some ("bytes NaN-" ++ (parseRange range (JSNum.num n)).endB.toDisplay ++
        "/" ++ toString n) ∧
    (streamHandlerV2 env qualityQ (some range)).res.status = 206 ∧
    getH (streamHandlerV2 env qualityQ (some range)).res.headers "Content-Length" =
      some "NaN" := by
  refine ⟨rfl, ?_, ?_, ?_, ?_, ?_, ?_, ?_⟩ <;>
    simp [streamHandler, streamHandlerV2, hCall, hSucc, hSel, hHead, hCL, hStart,
      hFetch, Res.fresh, Res.setHeader, Res.writeHead, setH, getH,
      JSNum.ge, JSNum.toDisplay, JSNum.sub_nan, JSNum.nan_add]

/-- C10 witness: bytes=abc- against a 1500-byte file. -/
theorem nan_start_streams_206_witness :
    JSNum.ge JSNum.nan (JSNum.num 1500) = false ∧
    (streamHandler envOk (some "720p") (some "bytes=abc-")).res.status = 206 ∧
    ¬(streamHandler envOk (some "720p") (some "bytes=abc-")).res.status = 400 ∧
    ¬(streamHandler envOk (some "720p") (some "bytes=abc-")).res.status = 416 ∧
    getH (streamHandler envOk (some "720p") (some "bytes=abc-")).res.headers "Content-Length" =
      some "NaN" ∧
    getH (streamHandler envOk (some "720p") (some "bytes=abc-")).res.headers "Content-Range" =
      some ("bytes NaN-" ++ (parseRange "bytes=abc-" (JSNum.num 1500)).endB.toDisplay ++
        "/" ++ toString (1500 : Int)) ∧
    (streamHandlerV2 envOk (some "720p") (some "bytes=abc-")).res.status = 206 ∧
    getH (streamHandlerV2 envOk (some "720p") (some "bytes=abc-")).res.headers "Content-Length" =
      some "NaN" :=
  nan_start_streams_206 envOk (some "720p") "bytes=abc-" src720 1500
    rfl rfl (by decide) rfl (by decide) (by decide) rfl
